import Mathlib

/-!
Verification of the crash-records analysis pipeline (`car_crash_analysis.py`).

The program loads six CSV relations into Spark dataframes, runs eight fixed
analyses over them, accumulates one formatted output fragment per analysis in
a report string, and writes the report to a single output file (deleting a
previous file first).

Shallow embedding used here:
* a dataframe is a `List` of rows; every CSV column is text (`String`),
  matching `spark.read.csv(header=True)` with no explicit schema;
* `filter` is `List.filter`, `count()` is `List.length`, `collect` is the
  list itself, `limit n` is `List.take n`;
* equi-joins on `CRASH_ID` are modelled left-major: for each left row, all
  matching right rows in order; a left join pairs an unmatched left row with
  `none`;
* `groupBy/agg(count)` produces one `(key, multiplicity)` pair per distinct
  key, keys in first-encounter order;
* `orderBy(col, ascending=False)` is a stable descending sort
  (`List.insertionSort`), per the stability requirement of the design;
* Spark's implicit text-to-number coercion of count columns is made explicit
  by `toNum` (digit strings only; anything else is `none`, and a numeric
  predicate on a `none` fails closed, i.e. the row is excluded);
* the fallible index access `collect()[0]` in analysis 3 is `Except`;
* file-system effects of the report sink are modelled as explicit state
  passing over the output file's content (`Option String`), with the
  primitive operations passed as `Except`-valued functions so that injected
  failures of the delete / write steps can be reasoned about.

One deliberate modelling note for analysis 7: the source writes
`self.damages_use_df.CRASH_ID.isNull` without invoking the check, so the
intended "damage side absent" condition is never actually applied as a
predicate; the filter is modelled with that conjunct contributing no
constraint (see the doc comment on `count_distinct_crash_ids_with_damages`).
-/

namespace CarCrash

/-- One row of `Primary_Person_use.csv`, restricted to the columns the
analyses read. Field order: CRASH_ID, PRSN_GNDR_ID, DEATH_CNT,
PRSN_ETHNICITY_ID, DRVR_LIC_STATE_ID, DRVR_LIC_CLS_ID, DRVR_ZIP,
PRSN_ALC_RSLT_ID. -/
structure PersonRow where
  CRASH_ID : String
  PRSN_GNDR_ID : String
  DEATH_CNT : String
  PRSN_ETHNICITY_ID : String
  DRVR_LIC_STATE_ID : String
  DRVR_LIC_CLS_ID : String
  DRVR_ZIP : String
  PRSN_ALC_RSLT_ID : String
deriving Repr, DecidableEq

/-- One row of `Units_use.csv`, restricted to the columns the analyses read.
Field order: CRASH_ID, VEH_BODY_STYL_ID, VEH_MAKE_ID, VEH_COLOR_ID,
VEH_DMAG_SCL_1_ID, VEH_DMAG_SCL_2_ID, FIN_RESP_TYPE_ID, TOT_INJRY_CNT,
DEATH_CNT. -/
structure UnitRow where
  CRASH_ID : String
  VEH_BODY_STYL_ID : String
  VEH_MAKE_ID : String
  VEH_COLOR_ID : String
  VEH_DMAG_SCL_1_ID : String
  VEH_DMAG_SCL_2_ID : String
  FIN_RESP_TYPE_ID : String
  TOT_INJRY_CNT : String
  DEATH_CNT : String
deriving Repr, DecidableEq

/-- One row of `Charges_use.csv` (columns the analyses read). -/
structure ChargeRow where
  CRASH_ID : String
  CHARGES : String
deriving Repr, DecidableEq

/-- One row of `Damages_use.csv` (columns the analyses read). -/
structure DamageRow where
  CRASH_ID : String
deriving Repr, DecidableEq

/-- One row of `Endorse_use.csv`; loaded by the program but never queried. -/
structure EndorseRow where
  CRASH_ID : String
deriving Repr, DecidableEq

/-- One row of `Restrict_use.csv`; loaded by the program but never queried. -/
structure RestrictRow where
  CRASH_ID : String
deriving Repr, DecidableEq

/-- The six relations the constructor loads, in its load order. -/
structure Inputs where
  charges : List ChargeRow
  damages : List DamageRow
  endorse : List EndorseRow
  persons : List PersonRow
  restrict : List RestrictRow
  units : List UnitRow

/-- Explicit text-to-number coercion standing for Spark's implicit cast of a
text count column in a numeric context: a non-empty all-digit string maps to
its value, anything else to `none` (a numeric predicate on `none` fails
closed). -/
def toNum (s : String) : Option Nat :=
  let cs := s.toList
  if cs ≠ [] ∧ cs.all (fun c => c.isDigit) then
    some (cs.foldl (fun acc c => acc * 10 + (c.toNat - 48)) 0)
  else none

/-- First occurrence of each element, in first-encounter order
(models `distinct()` and the key set of `groupBy`). -/
def dedupFirst {α : Type} [BEq α] : List α → List α
  | [] => []
  | x :: xs => x :: (dedupFirst xs).filter (fun y => !(y == x))

/-- `groupBy(key).agg(count(c))`: one `(key, multiplicity)` pair per distinct
key, keys in first-encounter order. -/
def groupCounts {α κ : Type} [BEq κ] (f : α → κ) (l : List α) : List (κ × Nat) :=
  (dedupFirst (l.map f)).map (fun k => (k, (l.filter (fun x => f x == k)).length))

/-- Descending order on the aggregated count column. -/
def countDescRel {κ : Type} (a b : κ × Nat) : Prop := b.2 ≤ a.2

instance {κ : Type} : DecidableRel (@countDescRel κ) := fun a b => Nat.decLe b.2 a.2

instance {κ : Type} : IsTotal (κ × Nat) countDescRel :=
  ⟨fun a b => (Nat.le_total b.2 a.2).imp id id⟩

instance {κ : Type} : IsTrans (κ × Nat) countDescRel :=
  ⟨fun _ _ _ h1 h2 => Nat.le_trans h2 h1⟩

/-- `orderBy("COUNT", ascending=False)`: stable descending sort by the count
column. -/
def sortByCountDesc {κ : Type} (l : List (κ × Nat)) : List (κ × Nat) :=
  List.insertionSort countDescRel l

/-- Whether `pat` is an initial segment of `s` (over char lists). -/
def charsStart : List Char → List Char → Bool
  | [], _ => true
  | _ :: _, [] => false
  | c :: cs, d :: ds => c == d && charsStart cs ds

/-- Whether `pat` occurs as a contiguous run of `s` (over char lists). -/
def charsHave (pat : List Char) : List Char → Bool
  | [] => pat.isEmpty
  | c :: rest => charsStart pat (c :: rest) || charsHave pat rest

/-- `Column.contains(pat)`: substring containment. -/
def containsStr (s pat : String) : Bool := charsHave pat.toList s.toList

/-- Left-major inner equi-join of two relations on their `CRASH_ID` keys. -/
def innerJoinOn {α β : Type} (keyL : α → String) (keyR : β → String)
    (l : List α) (r : List β) : List (α × β) :=
  l.flatMap (fun a => (r.filter (fun b => keyR b == keyL a)).map (fun b => (a, b)))

/-- The row predicate of analysis 1: `DEATH_CNT > 0` (text column compared to
a numeric literal, hence coerced) and `PRSN_GNDR_ID == "MALE"`. -/
def killedMalePred (p : PersonRow) : Bool :=
  (match toNum p.DEATH_CNT with
   | some n => decide (0 < n)
   | none => false) && (p.PRSN_GNDR_ID == "MALE")

/-- Analysis 1: count of Person rows with `DEATH_CNT > 0` and
`PRSN_GNDR_ID == "MALE"`. -/
def get_no_of_car_crashes_persons_killed_male (persons : List PersonRow) : Nat :=
  (persons.filter killedMalePred).length

/-- Analysis 2: count of Unit rows whose body style is MOTORCYCLE or POLICE
MOTORCYCLE. -/
def two_wheelers_booked_for_crashes (units : List UnitRow) : Nat :=
  (units.filter (fun u =>
    u.VEH_BODY_STYL_ID == "MOTORCYCLE" || u.VEH_BODY_STYL_ID == "POLICE MOTORCYCLE")).length

/-- Analysis 3: filter Person rows to `PRSN_GNDR_ID == "FEMALE"`, group by
`DRVR_LIC_STATE_ID` with `agg(count("CRASH_ID"))` (a raw row count), order by
the count descending, `limit(1).collect()[0]`. The trailing `[0]` on the
collected list fails on an empty result, modelled as `Except.error`. -/
def state_with_highest_accidents_females (persons : List PersonRow) :
    Except String String :=
  let females := persons.filter (fun p => p.PRSN_GNDR_ID == "FEMALE")
  let grouped := groupCounts (fun p => p.DRVR_LIC_STATE_ID) females
  match (sortByCountDesc grouped).take 1 with
  | [] => Except.error "list index out of range"
  | g :: _ => Except.ok g.1

/-- `injurySeverity` of a unit: the coerced sum `TOT_INJRY_CNT + DEATH_CNT`
(none when either column is non-numeric, matching a null arithmetic result). -/
def injSeverity (u : UnitRow) : Option Nat :=
  match toNum u.TOT_INJRY_CNT, toNum u.DEATH_CNT with
  | some a, some b => some (a + b)
  | _, _ => none

/-- Descending comparison on optional severities; a null severity orders after
every numeric one (Spark's NULLS LAST for a descending sort). -/
def sevLE (a b : Option Nat) : Bool :=
  match a, b with
  | some x, some y => decide (y ≤ x)
  | some _, none => true
  | none, some _ => false
  | none, none => true

/-- "May come before" order of units for analysis 4's descending sort. -/
def sevBefore (a b : UnitRow) : Prop := sevLE (injSeverity a) (injSeverity b) = true

instance : DecidableRel sevBefore := fun a b =>
  Bool.decEq (sevLE (injSeverity a) (injSeverity b)) true

/-- Analysis 4, up to the final projection: order units descending by
`injurySeverity`, `limit(15)`, assign `row_number` over the same descending
window, keep row numbers 5 through 15 (positions 5..15 of the ranked list). -/
def top_5_to_15_selected_units (units : List UnitRow) : List UnitRow :=
  ((List.insertionSort sevBefore
      ((List.insertionSort sevBefore units).take 15)).drop 4).take 11

/-- Analysis 4: the `VEH_MAKE_ID` projection of the selected ranked units. -/
def top_5_to_15_vehicle_ids_largest_no_of_injuries (units : List UnitRow) :
    List String :=
  (top_5_to_15_selected_units units).map (fun u => u.VEH_MAKE_ID)

/-- Analysis 5: inner-join Unit and Person on `CRASH_ID`, group by
`(VEH_BODY_STYL_ID, PRSN_ETHNICITY_ID)`, `agg(count(PRSN_ETHNICITY_ID))`, and
collect the grouped triples as they stand — the source performs no further
reduction to one top ethnicity per body style (its own comment reads "unable
to find MAX ethnicity group count for each body style"). -/
def top_ethnic_user_group_of_each_unique_body_style (units : List UnitRow)
    (persons : List PersonRow) : List ((String × String) × Nat) :=
  let joined := innerJoinOn (fun u => u.CRASH_ID) (fun p => p.CRASH_ID) units persons
  groupCounts (fun up => (up.1.VEH_BODY_STYL_ID, up.2.PRSN_ETHNICITY_ID)) joined

/-- Analysis 6: inner-join Person and Unit on `CRASH_ID`, keep 2/4-door
passenger cars with a positive alcohol result, group by `DRVR_ZIP` with a raw
`count("CRASH_ID")`, order descending, take the first 5 zip codes. -/
def top_5_zip_codes_with_highest_no_of_crashes_with_alcohol_factor
    (persons : List PersonRow) (units : List UnitRow) : List String :=
  let joined := innerJoinOn (fun p => p.CRASH_ID) (fun u => u.CRASH_ID) persons units
  let filtered := joined.filter (fun pu =>
    (pu.2.VEH_BODY_STYL_ID == "PASSENGER CAR, 4-DOOR" ||
      pu.2.VEH_BODY_STYL_ID == "PASSENGER CAR, 2-DOOR") &&
    pu.1.PRSN_ALC_RSLT_ID == "Positive")
  ((sortByCountDesc (groupCounts (fun pu => pu.1.DRVR_ZIP) filtered)).take 5).map
    (fun g => g.1)

/-- Analysis 7: left-join Unit with Damage on `CRASH_ID`, filter, and collect
the distinct `CRASH_ID` rows (the source returns this collected list, not a
count). The source's first filter conjunct is
`self.damages_use_df.CRASH_ID.isNull` — the null check is referenced but never
invoked, so the intended "no matched damage record" condition is never applied;
the conjunct is modelled as imposing no constraint, and consequently the
`damages` relation cannot influence which units pass the filter. The remaining
conjuncts are the two damage-scale memberships and `FIN_RESP_TYPE_ID != "NA"`. -/
def count_distinct_crash_ids_with_damages (units : List UnitRow)
    (damages : List DamageRow) : List String :=
  let damage_levels := ["DAMAGED 4", "DAMAGED 5", "DAMAGED 6", "DAMAGE 7 HIGHEST"]
  let joined : List (UnitRow × Option DamageRow) :=
    units.flatMap (fun u =>
      let matched := damages.filter (fun d => d.CRASH_ID == u.CRASH_ID)
      if matched.isEmpty then [(u, none)] else matched.map (fun d => (u, some d)))
  let filtered := joined.filter (fun ud =>
    damage_levels.contains ud.1.VEH_DMAG_SCL_1_ID &&
    damage_levels.contains ud.1.VEH_DMAG_SCL_2_ID &&
    ud.1.FIN_RESP_TYPE_ID != "NA")
  dedupFirst (filtered.map (fun ud => ud.1.CRASH_ID))

/-- Analysis 8: derive the top-10 vehicle colours and the top-25 licence
states (invalid state markers filtered out after the ordering, before the
limit, as in the source), inner-join Unit, Charge and Person on `CRASH_ID`,
filter to speeding charges, valid licence classes, top states and top colours,
group by `VEH_MAKE_ID`, order by count descending, take the first 5 makes. -/
def determine_top_5_vehicle_makes (units : List UnitRow)
    (charges : List ChargeRow) (persons : List PersonRow) : List String :=
  let invalid_license := ["NA", "UNLICENSED", "UNKNOWN"]
  let invalid_states := ["NA", "Unknown"]
  let top_10_colors :=
    ((sortByCountDesc (groupCounts (fun u => u.VEH_COLOR_ID) units)).take 10).map
      (fun g => g.1)
  let top_25_states :=
    (((sortByCountDesc (groupCounts (fun p => p.DRVR_LIC_STATE_ID) persons)).filter
        (fun g => !(invalid_states.contains g.1))).take 25).map (fun g => g.1)
  let j1 := innerJoinOn (fun u => u.CRASH_ID) (fun c => c.CRASH_ID) units charges
  let j2 := innerJoinOn (fun uc => uc.1.CRASH_ID) (fun p => p.CRASH_ID) j1 persons
  let filtered := j2.filter (fun ucp =>
    containsStr ucp.1.2.CHARGES "SPEED" &&
    !(invalid_license.contains ucp.2.DRVR_LIC_CLS_ID) &&
    top_25_states.contains ucp.2.DRVR_LIC_STATE_ID &&
    top_10_colors.contains ucp.1.1.VEH_COLOR_ID)
  ((sortByCountDesc (groupCounts (fun ucp => ucp.1.1.VEH_MAKE_ID) filtered)).take 5).map
    (fun g => g.1)

/-! ## Report assembler -/

/-- Python `str` of a one-column collected `Row` (value quoting elided; no
analysis result introduces a newline through this rendering). -/
def formatRow1 (field v : String) : String :=
  "Row(" ++ field ++ "=" ++ v ++ ")"

/-- Python `str` of a collected list of one-column rows. -/
def formatRowList1 (field : String) (vs : List String) : String :=
  "[" ++ String.intercalate ", " (vs.map (formatRow1 field)) ++ "]"

/-- Python `str` of one collected row of analysis 5's grouped triples. -/
def formatEthnRow (g : (String × String) × Nat) : String :=
  "Row(VEH_BODY_STYL_ID=" ++ g.1.1 ++ ", PRSN_ETHNICITY_ID=" ++ g.1.2 ++
    ", ethn_count=" ++ toString g.2 ++ ")"

/-- Python `str` of analysis 5's collected list. -/
def formatEthnList (l : List ((String × String) × Nat)) : String :=
  "[" ++ String.intercalate ", " (l.map formatEthnRow) ++ "]"

/-- Label of analysis 1's output fragment. -/
def label1 : String :=
  "Number of crashes (accidents) in which number of persons killed are male: "

/-- Label of analysis 2's output fragment. -/
def label2 : String := "Number of two wheelers booked for crashes: "

/-- Label of analysis 3's output fragment. -/
def label3 : String :=
  "State that has highest number of accidents in which females are involved: "

/-- Label of analysis 4's output fragment. -/
def label4 : String :=
  "Top 5th to 15th VEH_MAKE_IDs that contribute to a largest number of injuries including death: "

/-- Label of analysis 5's output fragment. -/
def label5 : String :=
  "For all the body styles involved in crashes, the top ethnic user group of each unique body style: "

/-- Label of analysis 6's output fragment. -/
def label6 : String :=
  "Among the crashed cars, what are the Top 5 Zip Codes with highest number crashes with alcohols as the contributing factor to a crash: "

/-- Label of analysis 7's output fragment. -/
def label7 : String :=
  "Count of Distinct Crash IDs where No Damaged Property was observed and Damage Level (VEH_DMAG_SCL~) is above 4 and car avails Insurance: "

/-- Label of analysis 8's output fragment. This is the source's triple-quoted
string literal: it contains two embedded newlines and the eight-space
indentation of its continuation lines, verbatim. -/
def label8 : String :=
  "Top 5 Vehicle Makes where drivers are charged with speeding related offences,\n        has licensed Drivers, uses top 10 used vehicle colours and has car licensed with the Top 25\n        states with highest number of offences: "

/-- The accumulated report text of a run: the eight analyses in their fixed
execution order, each appending its labelled fragment terminated by a newline.
Analysis 3's failure aborts the run before any later analysis or the write. -/
def runOutput (i : Inputs) : Except String String :=
  let l1 := label1 ++ toString (get_no_of_car_crashes_persons_killed_male i.persons) ++ "\n"
  let l2 := label2 ++ toString (two_wheelers_booked_for_crashes i.units) ++ "\n"
  match state_with_highest_accidents_females i.persons with
  | Except.error e => Except.error e
  | Except.ok st =>
    let l3 := label3 ++ formatRow1 "DRVR_LIC_STATE_ID" st ++ "\n"
    let l4 := label4 ++
      formatRowList1 "VEH_MAKE_ID" (top_5_to_15_vehicle_ids_largest_no_of_injuries i.units) ++ "\n"
    let l5 := label5 ++
      formatEthnList (top_ethnic_user_group_of_each_unique_body_style i.units i.persons) ++ "\n"
    let l6 := label6 ++
      formatRowList1 "DRVR_ZIP"
        (top_5_zip_codes_with_highest_no_of_crashes_with_alcohol_factor i.persons i.units) ++ "\n"
    let l7 := label7 ++
      formatRowList1 "CRASH_ID" (count_distinct_crash_ids_with_damages i.units i.damages) ++ "\n"
    let l8 := label8 ++
      formatRowList1 "VEH_MAKE_ID"
        (determine_top_5_vehicle_makes i.units i.charges i.persons) ++ "\n"
    Except.ok (l1 ++ l2 ++ l3 ++ l4 ++ l5 ++ l6 ++ l7 ++ l8)

/-- Whether a run reaches the report-writing step. -/
def runCompletes (i : Inputs) : Bool :=
  match runOutput i with
  | Except.ok _ => true
  | Except.error _ => false

/-- Number of newline characters in a string; since every analysis terminates
its fragment with a newline, this is the number of newline-terminated lines of
the report. -/
def countNL (s : String) : Nat := s.toList.count '\n'

/-! ## Report sink

The output file's state is its content at the destination path
(`none` = absent). The OS-level primitives — existence check, removal,
write — are passed as `Except`-valued functions, so the behaviour of the
`try/except` structure of the source under injected failures is part of the
model. -/

/-- `os.path.exists` on the destination path. -/
def osExists (fs : Option String) : Except String Bool := Except.ok fs.isSome

/-- `os.remove` on the destination path. -/
def osRemove (_ : Option String) : Except String (Option String) := Except.ok none

/-- `open(path, "w") / write`: replaces the content wholesale. -/
def osWrite (_ : Option String) (out : String) : Except String (Option String) :=
  Except.ok (some out)

/-- An existence check that raises. -/
def failingCheck (e : String) : Option String → Except String Bool :=
  fun _ => Except.error e

/-- A removal that raises. -/
def failingRemove (e : String) : Option String → Except String (Option String) :=
  fun _ => Except.error e

/-- A write that raises. -/
def failingWrite (e : String) : Option String → String → Except String (Option String) :=
  fun _ _ => Except.error e

/-- `_remove_file_if_exists`: check existence, remove when present; any
exception raised by either step is caught (logged) and the method returns
normally with whatever state the steps reached. -/
def remove_file_if_exists (check : Option String → Except String Bool)
    (rm : Option String → Except String (Option String))
    (fs : Option String) : Option String :=
  match check fs with
  | Except.error _ => fs
  | Except.ok b =>
    if b then
      match rm fs with
      | Except.error _ => fs
      | Except.ok fs2 => fs2
    else fs

/-- `write_to_file`: delete any previous output file, then write the whole
report; an exception raised by the write is logged and re-raised
(`raise`), so it propagates to the caller. -/
def write_to_file (check : Option String → Except String Bool)
    (rm : Option String → Except String (Option String))
    (w : Option String → String → Except String (Option String))
    (fs : Option String) (out : String) : Except String (Option String) :=
  let fs1 := remove_file_if_exists check rm fs
  match w fs1 out with
  | Except.ok fs2 => Except.ok fs2
  | Except.error e => Except.error e

/-- `execute_analysis` end to end at the file-system level: run the eight
analyses, then write the report with the real (non-failing) OS primitives.
An analysis failure propagates and leaves the file state untouched. -/
def runFS (i : Inputs) (fs : Option String) : Except String (Option String) :=
  match runOutput i with
  | Except.error e => Except.error e
  | Except.ok out => write_to_file osExists osRemove osWrite fs out

/-! ## Sample inputs -/

/-- Male fatality person, crash 1. -/
def samplePerson1 : PersonRow :=
  ⟨"1", "MALE", "1", "WHITE", "TX", "CLASS C", "78701", "Positive"⟩

/-- Female person, crash 2. -/
def samplePerson2 : PersonRow :=
  ⟨"2", "FEMALE", "0", "HISPANIC", "CA", "CLASS A", "90001", "Negative"⟩

/-- Motorcycle unit with casualties, crash 1. -/
def sampleUnit1 : UnitRow :=
  ⟨"1", "MOTORCYCLE", "HONDA", "RED", "DAMAGED 5", "DAMAGED 5",
    "PROOF OF LIABILITY INSURANCE", "1", "1"⟩

/-- Passenger car unit, crash 2. -/
def sampleUnit2 : UnitRow :=
  ⟨"2", "PASSENGER CAR, 4-DOOR", "FORD", "BLUE", "NO DAMAGE", "NO DAMAGE",
    "NA", "0", "0"⟩

/-- A small six-relation snapshot on which the whole run completes. -/
def sampleInputs : Inputs :=
  ⟨[⟨"1", "SPEEDING"⟩], [⟨"2"⟩], [⟨"1"⟩], [samplePerson1, samplePerson2],
    [⟨"1"⟩], [sampleUnit1, sampleUnit2]⟩

/-! ## Inputs used by the concrete theorems -/

/-- A unit with both damage scales in the high range and a non-"NA" financial
responsibility, whose crash has a matching damage record. -/
def damagedUnit : UnitRow :=
  ⟨"100", "SPORT UTILITY VEHICLE", "JEEP", "BLACK", "DAMAGED 5", "DAMAGED 6",
    "PROOF OF LIABILITY INSURANCE", "0", "0"⟩

/-- A damage record for the same crash as `damagedUnit`. -/
def damageFor100 : List DamageRow := [⟨"100"⟩]

/-- Female-filtered scenario: Texas has three female rows from a single crash,
California has two female rows from two different crashes. -/
def femScenario : List PersonRow :=
  [⟨"10", "FEMALE", "0", "WHITE", "TX", "CLASS C", "1", "Negative"⟩,
   ⟨"10", "FEMALE", "0", "WHITE", "TX", "CLASS C", "2", "Negative"⟩,
   ⟨"10", "FEMALE", "0", "WHITE", "TX", "CLASS C", "3", "Negative"⟩,
   ⟨"11", "FEMALE", "0", "WHITE", "CA", "CLASS C", "4", "Negative"⟩,
   ⟨"12", "FEMALE", "0", "WHITE", "CA", "CLASS C", "5", "Negative"⟩]

/-- The distinct crash identifiers of the female rows of one licence state. -/
def femDistinctCrashes (st : String) (persons : List PersonRow) : List String :=
  dedupFirst ((persons.filter
    (fun p => p.PRSN_GNDR_ID == "FEMALE" && p.DRVR_LIC_STATE_ID == st)).map
    (fun p => p.CRASH_ID))

/-- A unit of a single body style whose crash involves two ethnicities. -/
def styleUnit : UnitRow :=
  ⟨"20", "SPORT UTILITY VEHICLE", "JEEP", "BLACK", "NO DAMAGE", "NO DAMAGE",
    "NA", "0", "0"⟩

/-- Three persons of crash 20: two WHITE, one HISPANIC. -/
def stylePersons : List PersonRow :=
  [⟨"20", "MALE", "0", "WHITE", "TX", "CLASS C", "1", "Negative"⟩,
   ⟨"20", "FEMALE", "0", "WHITE", "TX", "CLASS C", "2", "Negative"⟩,
   ⟨"20", "MALE", "0", "HISPANIC", "TX", "CLASS C", "3", "Negative"⟩]

/-- A Person relation with no FEMALE row at all. -/
def noFemalePersons : List PersonRow :=
  [⟨"30", "MALE", "1", "WHITE", "TX", "CLASS C", "1", "Negative"⟩]

/-- A male row with a fatality, used to exercise the increment case of
analysis 1. -/
def maleKilledRow : PersonRow :=
  ⟨"3", "MALE", "1", "WHITE", "TX", "CLASS C", "7", "Negative"⟩

/-- Base Person relation for the monotonicity witness. -/
def monotonicBase : List PersonRow := [samplePerson1]

/-! ## Order-theoretic facts about the analysis-4 comparison -/

/-- `sevLE` is total. -/
theorem sevLE_total (a b : Option Nat) : sevLE a b = true ∨ sevLE b a = true := by
  cases a <;> cases b <;> simp [sevLE]
  omega

/-- `sevLE` is transitive. -/
theorem sevLE_trans (a b c : Option Nat) (h1 : sevLE a b = true)
    (h2 : sevLE b c = true) : sevLE a c = true := by
  cases a <;> cases b <;> cases c <;> simp [sevLE] at h1 h2 ⊢
  omega

instance : IsTotal UnitRow sevBefore :=
  ⟨fun a b => sevLE_total (injSeverity a) (injSeverity b)⟩

instance : IsTrans UnitRow sevBefore :=
  ⟨fun _ _ _ h1 h2 => sevLE_trans _ _ _ h1 h2⟩

/-- Unwinding `sevBefore` on rows with defined severities. -/
theorem sevBefore_le {a b : UnitRow} (h : sevBefore a b) :
    ∀ x y, injSeverity a = some x → injSeverity b = some y → y ≤ x := by
  intro x y hx hy
  unfold sevBefore at h
  rw [hx, hy] at h
  simpa [sevLE] using h

/-! ## The claims -/

set_option maxRecDepth 100000 in
/-- C1: the claim states that a successful run's output file consists of
exactly 8 newline-terminated lines. On the concrete complete run
`sampleInputs` the report text contains 10 newline characters, because
analysis 8's label — the source's triple-quoted string literal — itself
contains two embedded newlines; the other seven fragments contribute one line
each. The code contradicts the one-labelled-line-per-analysis format its own
fragment structure aims at, so the 8-line claim fails on the code. -/
theorem report_has_ten_lines_not_eight :
    (runOutput sampleInputs).map countNL = Except.ok 10 ∧ countNL label8 = 2 := by
  constructor
  · rfl
  · rfl

/-- C2: the claim states analysis 7 returns the integer count of distinct
`CRASH_ID`s among left-join rows whose damage side is absent. On a unit whose
crash has a matching damage record (so the damage side is present), with high
damage scales and insurance, the code still returns the crash — and returns
the collected list of distinct `CRASH_ID` rows, not an integer: the
`.isNull` absence check is referenced without being invoked, so it never
filters anything, and no count is taken of the collected rows. -/
theorem analysis7_collects_rows_despite_matched_damage :
    count_distinct_crash_ids_with_damages [damagedUnit] damageFor100 = ["100"] ∧
    (damageFor100.filter (fun d => d.CRASH_ID == damagedUnit.CRASH_ID)).length = 1 :=
  ⟨rfl, rfl⟩

/-- C3: the claim states analysis 3 compares the number of distinct
`CRASH_ID`s per licence state. On `femScenario`, Texas has three female rows
of one single crash while California has two female rows of two distinct
crashes; the distinct-crash counts are TX = 1 and CA = 2, yet the code
returns TX because it aggregates with a raw `count("CRASH_ID")` row count
(TX = 3 rows, CA = 2 rows) and never de-duplicates by crash. -/
theorem analysis3_raw_row_count_not_distinct :
    state_with_highest_accidents_females femScenario = Except.ok "TX" ∧
    (femDistinctCrashes "TX" femScenario).length = 1 ∧
    (femDistinctCrashes "CA" femScenario).length = 2 :=
  ⟨rfl, rfl, rfl⟩

/-- C4: the claim states analysis 5 returns one top ethnicity per distinct
body style, not the raw (style, ethnicity, count) triples. On a single-style
scenario with two ethnicities the code returns both grouped triples for the
style — it stops at the grouped counts and performs no per-style reduction
(its own comment says it was unable to compute the per-style maximum). -/
theorem analysis5_returns_raw_triples :
    top_ethnic_user_group_of_each_unique_body_style [styleUnit] stylePersons =
      [(("SPORT UTILITY VEHICLE", "WHITE"), 2),
       (("SPORT UTILITY VEHICLE", "HISPANIC"), 1)] :=
  rfl

/-- C5: the claim states that every analysis yields an empty/none result on an
empty filtered input rather than raising. Analyses 1, 2, 4, 5, 6, 7 and 8 do
return 0 or an empty list on empty relations, but analysis 3 indexes the
collected list with `[0]`, which raises when no Person row is FEMALE — the
run fails instead of producing a none result. -/
theorem analysis3_errors_on_empty_female_filter :
    state_with_highest_accidents_females noFemalePersons =
      Except.error "list index out of range" ∧
    get_no_of_car_crashes_persons_killed_male [] = 0 ∧
    two_wheelers_booked_for_crashes [] = 0 ∧
    top_5_to_15_vehicle_ids_largest_no_of_injuries [] = [] ∧
    top_ethnic_user_group_of_each_unique_body_style [] [] = [] ∧
    top_5_zip_codes_with_highest_no_of_crashes_with_alcohol_factor [] [] = [] ∧
    count_distinct_crash_ids_with_damages [] [] = [] ∧
    determine_top_5_vehicle_makes [] [] [] = [] :=
  ⟨rfl, rfl, rfl, rfl, rfl, rfl, rfl, rfl⟩

/-- C6: analysis 4's result has length at most 11, is the `VEH_MAKE_ID`
projection of the selected ranked units, and those units are a descending
rank slice: whenever two adjacent selected units both have a defined
`injurySeverity`, the first's severity is greater than or equal to the
second's. -/
theorem analysis4_rank_slice_sorted (units : List UnitRow) :
    (top_5_to_15_vehicle_ids_largest_no_of_injuries units).length ≤ 11 ∧
    top_5_to_15_vehicle_ids_largest_no_of_injuries units =
      (top_5_to_15_selected_units units).map (fun u => u.VEH_MAKE_ID) ∧
    List.Chain'
      (fun a b => ∀ x y, injSeverity a = some x → injSeverity b = some y → y ≤ x)
      (top_5_to_15_selected_units units) := by
  refine ⟨?_, rfl, ?_⟩
  · rw [top_5_to_15_vehicle_ids_largest_no_of_injuries, List.length_map,
      top_5_to_15_selected_units, List.length_take]
    exact Nat.min_le_left _ _
  · have hs : List.Sorted sevBefore
        (List.insertionSort sevBefore ((List.insertionSort sevBefore units).take 15)) :=
      List.sorted_insertionSort sevBefore _
    have hsub : List.Sublist (top_5_to_15_selected_units units)
        (List.insertionSort sevBefore ((List.insertionSort sevBefore units).take 15)) := by
      rw [top_5_to_15_selected_units]
      exact (List.take_sublist _ _).trans (List.drop_sublist _ _)
    exact (List.Pairwise.chain' (List.Pairwise.sublist hsub hs)).imp
      (fun a b h => sevBefore_le h)

/-- C7: analysis 1 is monotonic under appending one Person row: a row whose
`DEATH_CNT` coerces to 0 or whose gender is not "MALE" leaves the count
unchanged, and a row with `DEATH_CNT = "1"` and gender "MALE" increments the
count by exactly one. -/
theorem analysis1_append_monotonic (persons : List PersonRow) (r : PersonRow) :
    ((toNum r.DEATH_CNT = some 0 ∨ r.PRSN_GNDR_ID ≠ "MALE") →
      get_no_of_car_crashes_persons_killed_male (persons ++ [r]) =
        get_no_of_car_crashes_persons_killed_male persons) ∧
    (r.DEATH_CNT = "1" → r.PRSN_GNDR_ID = "MALE" →
      get_no_of_car_crashes_persons_killed_male (persons ++ [r]) =
        get_no_of_car_crashes_persons_killed_male persons + 1) := by
  constructor
  · intro h
    have hp : killedMalePred r = false := by
      rcases h with h | h
      · unfold killedMalePred
        rw [h]
        rfl
      · unfold killedMalePred
        rw [beq_eq_false_iff_ne.mpr h]
        exact Bool.and_false _
    simp [get_no_of_car_crashes_persons_killed_male, List.filter_append, hp]
  · intro h1 h2
    have hp : killedMalePred r = true := by
      unfold killedMalePred
      rw [h1, h2]
      rfl
    simp [get_no_of_car_crashes_persons_killed_male, List.filter_append, hp]

/-- C7 witness: appending a non-male row leaves the count at the base value,
and appending a male fatality row increments it by one. -/
theorem analysis1_append_monotonic_witness :
    get_no_of_car_crashes_persons_killed_male (monotonicBase ++ [samplePerson2]) =
      get_no_of_car_crashes_persons_killed_male monotonicBase ∧
    get_no_of_car_crashes_persons_killed_male (monotonicBase ++ [maleKilledRow]) =
      get_no_of_car_crashes_persons_killed_male monotonicBase + 1 :=
  ⟨(analysis1_append_monotonic monotonicBase samplePerson2).1 (Or.inr (by decide)),
   (analysis1_append_monotonic monotonicBase maleKilledRow).2 rfl rfl⟩

/-- C8: determinism of a complete run. For one fixed six-relation snapshot on
which the run completes, the file content after the run does not depend on the
previous state of the output file — so two successive complete runs write
byte-identical content — and that content is exactly the assembled report. -/
theorem run_deterministic_and_overwrites (i : Inputs) (fs1 fs2 : Option String)
    (h : runCompletes i = true) :
    runFS i fs1 = runFS i fs2 ∧
    ∃ out, runFS i fs1 = Except.ok (some out) ∧ runOutput i = Except.ok out := by
  unfold runCompletes at h
  cases hh : runOutput i with
  | error e => rw [hh] at h; simp at h
  | ok out =>
    have hw : ∀ fs, runFS i fs = Except.ok (some out) := by
      intro fs
      unfold runFS
      rw [hh]
      cases fs <;> rfl
    exact ⟨(hw fs1).trans (hw fs2).symm, out, hw fs1, rfl⟩

/-- C8 witness: on the sample snapshot, starting from an absent file and from
a stale file yields the same written report. -/
theorem run_deterministic_and_overwrites_witness :
    runFS sampleInputs none = runFS sampleInputs (some "stale report") ∧
    ∃ out, runFS sampleInputs none = Except.ok (some out) ∧
      runOutput sampleInputs = Except.ok out :=
  run_deterministic_and_overwrites sampleInputs none (some "stale report") rfl

/-- C9: the report sink deletes any existing file first (an absent file is not
an error and deletion from any prior state leaves the path absent), then
writes the full report; a write failure propagates to the caller as an error
and is never swallowed. -/
theorem report_sink_delete_then_write_or_fail :
    ∀ (fs : Option String) (out e : String),
      remove_file_if_exists osExists osRemove fs = none ∧
      write_to_file osExists osRemove osWrite fs out = Except.ok (some out) ∧
      write_to_file osExists osRemove (failingWrite e) fs out = Except.error e := by
  intro fs out e
  cases fs <;> exact ⟨rfl, rfl, rfl⟩

/-- C10: every failure raised while checking for or removing the existing
output file is caught inside `_remove_file_if_exists`, which returns
normally, and the subsequent write of the report is still attempted and
succeeds. -/
theorem remove_step_swallows_errors_and_write_proceeds :
    ∀ (fs : Option String) (out e1 e2 : String),
      remove_file_if_exists (failingCheck e1) osRemove fs = fs ∧
      remove_file_if_exists osExists (failingRemove e2) fs = fs ∧
      write_to_file (failingCheck e1) osRemove osWrite fs out = Except.ok (some out) ∧
      write_to_file osExists (failingRemove e2) osWrite fs out = Except.ok (some out) := by
  intro fs out e1 e2
  cases fs <;> exact ⟨rfl, rfl, rfl, rfl⟩

end CarCrash
